import Mathlib

/-!
Verification development for `cubeviz/controls/slice.py` (class `SliceController`).

The controller synchronizes a slider widget, a slice-index textbox, a
wavelength textbox, a set of cube viewers and a cross-application event bus.
We embed its state as an explicit record and each handler as a function on
that record.  Wavelength values (Python floats holding exact decimals in all
scenarios considered here) are modelled as rationals; textbox contents are
modelled as strings together with models of the Python builtins `int(str)`,
`float(str)`, `str(int)`, `str(float)` and the format spec `. 3` (three
significant digits, general presentation).
-/

namespace SliceCtl

attribute [local semireducible] Rat.add Rat.sub Rat.mul Rat.inv Rat.ofScientific

/-- Decimal digit test, as used by Python's numeric literal parsing. -/
def isDigit (c : Char) : Bool := '0' ≤ c && c ≤ '9'

/-- The ASCII whitespace Python's numeric constructors strip. -/
def isPyWs (c : Char) : Bool := c = ' ' || c = '\t' || c = '\n' || c = '\r'

/-- The character list of `s` with surrounding whitespace stripped, as
Python's `int`/`float` constructors do before parsing. -/
def pyStrip (s : String) : List Char :=
  ((s.toList.dropWhile isPyWs).reverse.dropWhile isPyWs).reverse

/-- Value of a list of decimal digit characters. -/
def digitsVal (l : List Char) : Nat := l.foldl (fun a c => a * 10 + (c.toNat - 48)) 0

/-- Model of Python `int(s)` on strings: optional surrounding whitespace,
optional sign, then a nonempty run of decimal digits.  (Digit-group
underscores and non-ASCII digits are not modelled; no theorem instantiates
them.)  `none` models the `ValueError` raised on any other input. -/
def pyInt? (s : String) : Option Int :=
  let t := pyStrip s
  match t with
  | '-' :: r => if r ≠ [] && r.all isDigit then some (-(digitsVal r : Int)) else none
  | '+' :: r => if r ≠ [] && r.all isDigit then some (digitsVal r : Int) else none
  | r => if r ≠ [] && r.all isDigit then some (digitsVal r : Int) else none

/-- Model of Python `float(s)` on strings: optional surrounding whitespace,
optional sign, a mantissa `ddd`, `ddd.ddd`, `.ddd` or `ddd.` with at least
one digit, and an optional exponent `e±ddd`.  (The special values
`inf`/`nan` and digit-group underscores are not modelled; no theorem
instantiates them.)  `none` models the `ValueError` raised otherwise. -/
def pyFloat? (s : String) : Option ℚ :=
  let t := pyStrip s
  let sgn : ℚ × List Char :=
    match t with
    | '-' :: r => (-1, r)
    | '+' :: r => (1, r)
    | r => (1, r)
  let ip := sgn.2.takeWhile isDigit
  let rest1 := sgn.2.dropWhile isDigit
  let fprest : List Char × List Char :=
    match rest1 with
    | '.' :: r => (r.takeWhile isDigit, r.dropWhile isDigit)
    | r => ([], r)
  let fp := fprest.1
  if ip = [] && fp = [] then none
  else
    let mant : ℚ := (digitsVal ip : ℚ) + (digitsVal fp : ℚ) / ((10 : ℚ) ^ fp.length)
    match fprest.2 with
    | [] => some (sgn.1 * mant)
    | 'e' :: r =>
      match r with
      | '-' :: r2 => if r2 ≠ [] && r2.all isDigit then some (sgn.1 * mant / (10 : ℚ) ^ digitsVal r2) else none
      | '+' :: r2 => if r2 ≠ [] && r2.all isDigit then some (sgn.1 * mant * (10 : ℚ) ^ digitsVal r2) else none
      | r2 => if r2 ≠ [] && r2.all isDigit then some (sgn.1 * mant * (10 : ℚ) ^ digitsVal r2) else none
    | 'E' :: r =>
      match r with
      | '-' :: r2 => if r2 ≠ [] && r2.all isDigit then some (sgn.1 * mant / (10 : ℚ) ^ digitsVal r2) else none
      | '+' :: r2 => if r2 ≠ [] && r2.all isDigit then some (sgn.1 * mant * (10 : ℚ) ^ digitsVal r2) else none
      | r2 => if r2 ≠ [] && r2.all isDigit then some (sgn.1 * mant * (10 : ℚ) ^ digitsVal r2) else none
    | _ => none

/-- Model of Python `str(n)` for an `int`. -/
def pyStrInt (n : Int) : String := toString n

/-- Decimal digits of the fractional part `f` (with `0 ≤ f < 1`), stopping
when the remainder reaches zero; at most `fuel` digits. -/
def fracDigits : Nat → ℚ → List Char
  | 0, _ => []
  | fuel + 1, f =>
    if f = 0 then []
    else
      let f10 := f * 10
      let d := ⌊f10⌋.toNat
      Nat.digitChar d :: fracDigits fuel (f10 - (d : ℚ))

/-- Model of Python `str(x)` for a float (also `str` of a numpy float64
scalar): sign, integer part, a dot, then the fractional digits with `0`
when the value is integral.  Python prints the shortest decimal that
round-trips; for the exact-decimal values used in this development that is
the exact decimal expansion, which is what we produce (32 digits of fuel
suffice for every value any theorem instantiates). -/
def pyStrFloat (q : ℚ) : String :=
  let sgn := if q < 0 then "-" else ""
  let a := |q|
  let ip := ⌊a⌋.toNat
  let ds := fracDigits 32 (a - (ip : ℚ))
  sgn ++ toString ip ++ "." ++ (if ds = [] then "0" else String.mk ds)

/-- Decimal exponent for `q ≥ 1`: number of divisions by 10 until below 10. -/
def expUp : Nat → ℚ → Int
  | 0, _ => 0
  | fuel + 1, q => if q < 10 then 0 else 1 + expUp fuel (q / 10)

/-- Decimal exponent helper for `0 < q < 1`: multiplications by 10 to reach 1. -/
def expDown : Nat → ℚ → Int
  | 0, _ => 0
  | fuel + 1, q => if 1 ≤ q then 0 else 1 + expDown fuel (q * 10)

/-- Decimal exponent `e` of a positive rational: `10^e ≤ q < 10^(e+1)`. -/
def decExp (q : ℚ) : Int := if 1 ≤ q then expUp 64 q else -expDown 64 q

/-- Python's round-half-even on a rational, to an integer. -/
def roundHalfEven (q : ℚ) : Int :=
  let n := ⌊q⌋
  let f := q - (n : ℚ)
  if f < 1 / 2 then n
  else if 1 / 2 < f then n + 1
  else if n % 2 = 0 then n else n + 1

/-- Round a positive rational to three significant decimal digits
(half-to-even, as CPython's float formatting does). -/
def roundSig3 (q : ℚ) : ℚ :=
  let e := decExp q
  if e ≥ 2 then
    let scale : ℚ := ((10 : ℕ) ^ (e - 2).toNat : ℕ)
    (roundHalfEven (q / scale) : ℚ) * scale
  else
    let scale : ℚ := ((10 : ℕ) ^ (2 - e).toNat : ℕ)
    (roundHalfEven (q * scale) : ℚ) / scale

/-- Model of Python `format(x, spec)` for the format spec `. 3` written
without the space (precision three, empty presentation type): general
format with three significant digits, trailing zeros stripped but at least
one digit kept after the decimal point.  Only the fixed-notation branch is
modelled (values with decimal exponent in `[-4, 3)` after rounding); no
theorem instantiates the scientific-notation branch. -/
def formatDot3 (q : ℚ) : String :=
  if q = 0 then "0.0"
  else if q < 0 then "-" ++ pyStrFloat (roundSig3 (-q))
  else pyStrFloat (roundSig3 q)

/-- The two format strings the controller stores in `self._wavelength_format`:
the initial `'{}'` and the `'{:.3}'` installed by `enable` /
`set_wavelengths`. -/
inductive Fmt
  | default
  | sig3
deriving DecidableEq, Repr

/-- `fmt.format(x)` for a float argument: `'{}'` is `str(x)`, `'{:.3}'` is
three-significant-digit general formatting. -/
def Fmt.apply : Fmt → ℚ → String
  | .default, q => pyStrFloat q
  | .sig3, q => formatDot3 q

/-- A Python value, as needed to model the dynamically-typed comparison
`index == self._slice_textbox.text()` (an `int` against a `str`). -/
inductive PyVal
  | int (n : Int)
  | str (s : String)
deriving DecidableEq, Repr

/-- Python `==` on these values: numeric equality between ints, string
equality between strings, and `False` across the two types (neither side's
`__eq__` accepts the other, so the comparison falls back to identity,
which is `False` for an int and a str). -/
def pyEq : PyVal → PyVal → Bool
  | .int a, .int b => a == b
  | .str a, .str b => a == b
  | _, _ => false

/-- The `RED_BACKGROUND` stylesheet string applied on invalid input. -/
def RED_BACKGROUND : String := "background-color: rgba(255, 0, 0, 128);"

/-- The initial observed-wavelength label text (`OBS_WAVELENGTH_TEXT`). -/
def OBS_WAVELENGTH_TEXT : String := "Obs Wavelength"

/-- A Qt slider (`QSlider`): minimum, maximum and current value.
`setValue` clamps into `[min, max]`; the `valueChanged` cascade is modelled
explicitly where a claim depends on it. -/
structure Slider where
  min : Int
  max : Int
  val : Int
deriving DecidableEq, Repr

/-- `QSlider.setValue`: the stored value is bounded into the slider range. -/
def Slider.setValue (s : Slider) (v : Int) : Slider :=
  { s with val := Max.max s.min (Min.min s.max v) }

/-- A cube viewer's widget: its sync flag, the slice index it currently
displays, and whether the last redraw was the fast (blit-only) one. -/
structure Viewer where
  synced : Bool
  slice_index : Int
  fast_drawn : Bool
deriving DecidableEq, Repr

/-- `widget.update_slice_index(i)`: full redraw at slice `i`. -/
def Viewer.update_slice_index (v : Viewer) (i : Int) : Viewer :=
  { v with slice_index := i, fast_drawn := false }

/-- `widget.fast_draw_slice_at_index(i)`: fast (blit-only) redraw at `i`. -/
def Viewer.fast_draw_slice_at_index (v : Viewer) (i : Int) : Viewer :=
  { v with slice_index := i, fast_drawn := true }

/-- Placeholder viewer used as the (never-reached) default of list lookups. -/
def noViewer : Viewer := ⟨false, 0, false⟩

/-- Notifications emitted on the specviz dispatch:
`changed_dispersion_position.emit(pos=...)` (the position is the Python int
the source passes) and `changed_units.emit(x=...)`. -/
inductive Ev
  | dispersionPos (pos : Int)
  | changedUnits (units : String)
deriving DecidableEq, Repr

/-- The controller state: the widgets' contents, the wavelength axis, the
parent layout's fields the controller reads and writes (`synced_index`,
`cube_views`, `_active_cube` as an index into `cube_views`,
`_single_viewer_mode`, `_units_controller.redshift_z`), and an accumulator
of emitted notifications. -/
structure State where
  wavelengths : List ℚ
  slice_text : String
  wavelength_text : String
  slice_style : String
  wavelength_style : String
  slider : Slider
  slider_flag : Bool
  synced_index : Int
  cube_views : List Viewer
  active_index : Nat
  single_viewer_mode : Bool
  redshift : Option ℚ
  wavelength_format : Fmt
  wavelength_units : Option String
  wavelength_label_text : String
  label_text : String
  widgets_enabled : Bool
  emitted : List Ev
deriving DecidableEq, Repr

/-- Python/numpy sequence indexing `xs[i]` with an `int` index: negative
indices count from the end; `none` models the `IndexError` raised when the
index is out of range. -/
def pyIndex (xs : List ℚ) (i : Int) : Option ℚ :=
  let j := if i < 0 then i + xs.length else i
  if 0 ≤ j ∧ j < xs.length then some (xs.getD j.toNat 0) else none

/-- Total stand-in for `xs[i]` at call sites every theorem instantiates
in range (out-of-range access raises `IndexError` in the source). -/
def pyGet (xs : List ℚ) (i : Int) : ℚ := (pyIndex xs i).getD 0

/-- Index and value of the first minimal `|x - w|` in `xs`; `none` on the
empty list. -/
def nearestAux : List ℚ → ℚ → Option (Nat × ℚ)
  | [], _ => none
  | x :: rest, w =>
    match nearestAux rest w with
    | none => some (0, x)
    | some (j, b) => if |x - w| ≤ |b - w| then some (0, x) else some (j + 1, b)

/-- Model of `np.argsort(abs(xs - w))[0]`: the index of a minimal
`|xs[i] - w|`.  Ties are resolved to the lowest index, matching the stable
ordering numpy's default sort exhibits on the array sizes exercised here
(its introsort runs plain insertion sort below the 16-element cutoff).
The source raises `IndexError` on an empty axis; the `0` default is never
instantiated by a theorem. -/
def nearest_index (xs : List ℚ) (w : ℚ) : Nat :=
  match nearestAux xs w with
  | none => 0
  | some (j, _) => j

/-- The wavelength-textbox resolution performed in `master_index_update`
(lines 151-156): parse the textbox as a float and resolve it to the
nearest axis index, with `-1` as the sentinel on a parse failure. -/
def wvIndexOf (s : State) : Int :=
  match pyFloat? s.wavelength_text with
  | some w => (nearest_index s.wavelengths w : Int)
  | none => -1

/-- `enable(wcs, wavelengths)` (lines 78-105): enable the widgets, subscribe
`master_index_update` as the hub's sole handler of `SliceIndexUpdateMessage`,
install units/format/label, bind the axis, point the slider at the middle
index and record it as the synced index.  `wcs.wcs.cunit[2]` is passed in as
the unit string.  `setMaximum` bounds the current slider value into range
and `setValue` may fire a re-entrant `valueChanged` cascade; the cascade
re-synchronizes the same middle index and cannot affect the fields any
theorem reads from `enable`'s result (`synced_index`, `wavelengths`,
`slider`).  `Except.error` carries the state abandoned by the `IndexError`
that line 103 raises on an empty axis. -/
def enable (s : State) (units : String) (wavelengths : List ℚ) : Except State State :=
  let s1 : State := { s with widgets_enabled := true }
  let s2 : State := { s1 with slider := { s1.slider with min := 0 } }
  let s3 : State := { s2 with wavelength_units := some units,
                              wavelength_format := Fmt.sig3,
                              label_text := s2.wavelength_label_text ++ " (" ++ units ++ ")" }
  let s4 : State := { s3 with wavelengths := wavelengths,
                              slider := { s3.slider with
                                max := (wavelengths.length : Int) - 1,
                                val := Max.max s3.slider.min
                                  (Min.min ((wavelengths.length : Int) - 1) s3.slider.val) } }
  let middle_index : Nat := wavelengths.length / 2
  let s5 : State := { s4 with slider := s4.slider.setValue middle_index }
  match pyIndex wavelengths middle_index with
  | none => .error s5
  | some w =>
    let s6 : State := { s5 with wavelength_text := Fmt.apply Fmt.sig3 w }
    .ok { s6 with synced_index := middle_index }

/-- `set_enabled(value)` (lines 107-110). -/
def set_enabled (s : State) (value : Bool) : State :=
  { s with widgets_enabled := value }

/-- `set_wavelengths(new_wavelengths, new_units)` (lines 112-126): replace
units/format/label and the axis, bound the slider range (Qt also bounds the
current value into the new range), re-render the wavelength textbox at the
still-unchanged `synced_index`, and emit the units notification.
`new_units.short_names[0]` is passed in as the unit name.  `Except.error`
carries the state abandoned by the `IndexError` that line 124 raises when
the synced index is out of range for the replacement axis. -/
def set_wavelengths (s : State) (new_wavelengths : List ℚ) (new_units_name : String) : Except State State :=
  let s1 : State := { s with wavelength_units := some new_units_name,
                             wavelength_format := Fmt.sig3,
                             label_text := s.wavelength_label_text ++ " (" ++ new_units_name ++ ")" }
  let s2 : State := { s1 with wavelengths := new_wavelengths,
                              slider := { s1.slider with
                                max := (new_wavelengths.length : Int) - 1,
                                val := Max.max s1.slider.min
                                  (Min.min ((new_wavelengths.length : Int) - 1) s1.slider.val) } }
  match pyIndex new_wavelengths s.synced_index with
  | none => .error s2
  | some w =>
    let s3 : State := { s2 with wavelength_text := Fmt.apply Fmt.sig3 w }
    .ok { s3 with emitted := s3.emitted ++ [Ev.changedUnits new_units_name] }

/-- `get_index()` (lines 128-129). -/
def get_index (s : State) : Int := s.synced_index

/-- `update_index(index)` (lines 131-132). -/
def update_index (s : State) (index : Int) : State :=
  { s with slider := s.slider.setValue index }

/-- `change_slider_value(amount)` (lines 134-138): add `amount` to the
current slider value, push the sum through `setValue` (which clamps), then
emit the *unclamped* sum as the dispersion position.  When the clamp moves
the stored value, the intervening `valueChanged` cascade may emit further
notifications first; the event appended here is the one line 138 emits. -/
def change_slider_value (s : State) (amount : Int) : State :=
  let new_index := s.slider.val + amount
  let s1 : State := { s with slider := s.slider.setValue new_index }
  { s1 with emitted := s1.emitted ++ [Ev.dispersionPos new_index] }

/-- `apply_to_viewers(index)` (lines 178-200): when the active widget is
synced and single-viewer mode is off, redraw every synced viewer (fast or
full per the slider flag) and record `index` as the shared synced index;
otherwise redraw only the active widget.  Either way emit the dispersion
position. -/
def apply_to_viewers (s : State) (index : Int) : State :=
  let active_widget := s.cube_views.getD s.active_index noViewer
  if active_widget.synced && !s.single_viewer_mode then
    let views := s.cube_views.map (fun v =>
      if v.synced then
        if s.slider_flag then v.fast_draw_slice_at_index index
        else v.update_slice_index index
      else v)
    { s with cube_views := views, synced_index := index,
             emitted := s.emitted ++ [Ev.dispersionPos index] }
  else
    let views := s.cube_views.set s.active_index
      (if s.slider_flag then active_widget.fast_draw_slice_at_index index
       else active_widget.update_slice_index index)
    { s with cube_views := views,
             emitted := s.emitted ++ [Ev.dispersionPos index] }

/-- `master_index_update(message)` (lines 140-165) at `message.index`:
rewrite the slice textbox to `str(index)` unless it already parses to
`index` (`-1` sentinel on a parse failure); rewrite the wavelength textbox
to `str(wavelengths[index])` unless its parsed content already resolves to
`index` (`-1` sentinel); move the slider to `index` if it is elsewhere; and
fan out through `apply_to_viewers`.  The slider move on line 163 fires a
re-entrant `valueChanged` cascade when the value changes; for the in-range
indices every theorem instantiates, the re-entrant run finds all three
widgets already reconciled and repeats only the (idempotent) viewer updates
plus one more dispersion-position event, so the fields any theorem reads
are those of this one-shot model. -/
def master_index_update (s : State) (index : Int) : State :=
  let tb_index : Int := (pyInt? s.slice_text).getD (-1)
  let s1 : State := if tb_index ≠ index then { s with slice_text := pyStrInt index } else s
  let wv_index : Int := wvIndexOf s1
  let s2 : State :=
    if index ≠ wv_index then { s1 with wavelength_text := pyStrFloat (pyGet s1.wavelengths index) }
    else s1
  let s3 : State := if s2.slider.val ≠ index then { s2 with slider := s2.slider.setValue index } else s2
  apply_to_viewers s3 index

/-- Setting the slider to `i` from the outside: `setValue` clamps, and Qt
fires `valueChanged` exactly when the stored value changed, which runs
`_on_slider_change` (lines 167-176); that handler reads the slider value,
wraps it in a `SliceIndexUpdateMessage` and broadcasts it on the hub, whose
sole subscriber (registered in `enable`) is `master_index_update`. -/
def set_slider_and_propagate (s : State) (i : Int) : State :=
  let s1 : State := { s with slider := s.slider.setValue i }
  if s1.slider.val ≠ s.slider.val then master_index_update s1 s1.slider.val else s1

/-- `_on_slider_pressed()` (lines 202-209). -/
def on_slider_pressed (s : State) : State := { s with slider_flag := true }

/-- `_on_slider_released()` (lines 211-240): drop the fast-draw flag, then
full-redraw every synced viewer (or only the active one, per the same
condition as `apply_to_viewers`), record the synced index, and emit the
dispersion position. -/
def on_slider_released (s : State) : State :=
  let s1 : State := { s with slider_flag := false }
  let index := s1.slider.val
  let active_widget := s1.cube_views.getD s1.active_index noViewer
  if active_widget.synced && !s1.single_viewer_mode then
    let views := s1.cube_views.map (fun v => if v.synced then v.update_slice_index index else v)
    { s1 with cube_views := views, synced_index := index,
              emitted := s1.emitted ++ [Ev.dispersionPos index] }
  else
    { s1 with cube_views := s1.cube_views.set s1.active_index (active_widget.update_slice_index index),
              emitted := s1.emitted ++ [Ev.dispersionPos index] }

/-- `_update_slice_textboxes(message)` (lines 242-256); its bus subscription
is commented out in the source, so nothing calls it, but it is part of the
class. -/
def update_slice_textboxes (s : State) (index : Int) : State :=
  let s1 : State := { s with slice_text := pyStrInt index }
  { s1 with wavelength_text := Fmt.apply s1.wavelength_format (pyGet s1.wavelengths index) }

/-- `_on_text_slice_change(event)` (lines 258-286): parse the slice textbox
as an int (on failure, paint it red and stop; on success, clear the style);
the guard on line 275 compares the parsed int against the textbox *string*;
then clamp sequentially against `0` and `len(wavelengths) - 1` and push the
result to the slider (whose `valueChanged` cascade then reconciles the
remaining widgets without moving the slider again). -/
def on_text_slice_change (s : State) : State :=
  match pyInt? s.slice_text with
  | none => { s with slice_style := RED_BACKGROUND }
  | some index =>
    let s1 : State := { s with slice_style := "" }
    if pyEq (PyVal.int index) (PyVal.str s1.slice_text) then s1
    else
      let index1 := if index < 0 then 0 else index
      let index2 :=
        if index1 > (s1.wavelengths.length : Int) - 1 then (s1.wavelengths.length : Int) - 1
        else index1
      { s1 with slider := s1.slider.setValue index2 }

/-- `_on_text_wavelength_change(event, pos)` (lines 288-312): take `pos`
when supplied, else parse the wavelength textbox as a float (on failure,
paint it red and stop); resolve to the nearest axis index, clear the error
style, and push the index to the slider. -/
def on_text_wavelength_change (s : State) (pos : Option ℚ) : State :=
  let w? : Option ℚ :=
    match pos with
    | some p => some p
    | none => pyFloat? s.wavelength_text
  match w? with
  | none => { s with wavelength_style := RED_BACKGROUND }
  | some w =>
    let index := nearest_index s.wavelengths w
    let s1 : State := { s with wavelength_style := "" }
    { s1 with slider := s1.slider.setValue index }

/-- `specviz_wavelength_slider_change(event, pos)` (lines 314-341): save and
set the fast-draw flag; when a units controller is present with a nonzero
redshift, divide the observed position by `1 + z`, resolve the rest
wavelength to the nearest axis index and replace `pos` by the axis value
there; delegate to `_on_text_wavelength_change`; restore the flag when this
handler was the one that set it. -/
def specviz_wavelength_slider_change (s : State) (pos : ℚ) : State :=
  let deactivate_flag := !s.slider_flag
  let s1 : State := { s with slider_flag := true }
  let pos1 : ℚ :=
    match s1.redshift with
    | some z =>
      if z ≠ 0 then
        let rest_wavelength := pos / (1 + z)
        pyGet s1.wavelengths (nearest_index s1.wavelengths rest_wavelength)
      else pos
    | none => pos
  let s2 : State := on_text_wavelength_change s1 (some pos1)
  if deactivate_flag then { s2 with slider_flag := false } else s2

/-- The synced-index invariant of the spec: an integer valid as an index of
the current wavelength axis. -/
def IdxInv (s : State) : Prop :=
  0 ≤ s.synced_index ∧ s.synced_index < (s.wavelengths.length : Int)

/-- Boolean form of `IdxInv`, for closed counterexample statements. -/
def IdxInvB (s : State) : Bool :=
  decide (0 ≤ s.synced_index) && decide (s.synced_index < (s.wavelengths.length : Int))

/-- Well-formedness of the slider bindings that `enable`/`set_wavelengths`
establish: range `[0, len(axis) - 1]` with the value inside it. -/
def SliderWF (s : State) : Prop :=
  s.slider.min = 0 ∧ s.slider.max = (s.wavelengths.length : Int) - 1 ∧
    s.slider.min ≤ s.slider.val ∧ s.slider.val ≤ s.slider.max

/-- Whether a modelled call raised (`IndexError`) rather than returned. -/
def raised : Except State State → Bool
  | .error _ => true
  | .ok _ => false

/-- The state a modelled call left behind, normal return or not. -/
def resultState : Except State State → State
  | .error s => s
  | .ok s => s

/-- A representative post-`enable` state: axis `[1, 2]`, slider bound to
`[0, 1]`, one synced viewer, no redshift. -/
def baseState : State :=
  { wavelengths := [1, 2]
    slice_text := ""
    wavelength_text := ""
    slice_style := ""
    wavelength_style := ""
    slider := ⟨0, 1, 0⟩
    slider_flag := false
    synced_index := 0
    cube_views := [⟨true, 0, false⟩]
    active_index := 0
    single_viewer_mode := false
    redshift := none
    wavelength_format := Fmt.sig3
    wavelength_units := some "m"
    wavelength_label_text := OBS_WAVELENGTH_TEXT
    label_text := "Obs Wavelength (m)"
    widgets_enabled := true
    emitted := [] }

/-- State for the C1 counterexample: axis `[1.23456, 2]`, both textboxes
holding unparsable text, slider at index 1. -/
def stateC1 : State :=
  { baseState with
    wavelengths := [123456 / 100000, 2]
    slice_text := "abc"
    wavelength_text := "xyz"
    slider := ⟨0, 1, 1⟩ }

/-- State for the C3 counterexample: synced index `1` on the axis `[1, 2]`,
slider resting at `0`. -/
def stateC3 : State :=
  { baseState with synced_index := 1 }

/-- State for the C5 counterexample: an axis with a duplicated wavelength. -/
def stateC5 : State :=
  { baseState with wavelengths := [1, 1], slider := ⟨0, 1, 1⟩ }

/-- State for witnesses needing parsable textbox contents. -/
def stateParsed : State :=
  { baseState with slice_text := "5", wavelength_text := "0.5" }

/-- State for witnesses needing unparsable textbox contents. -/
def stateUnparsed : State :=
  { baseState with slice_text := "abc", wavelength_text := "xyz",
                   slice_style := "x", wavelength_style := "y" }

/-- State with a configured redshift, for the C4 witness. -/
def stateRedshift : State :=
  { baseState with redshift := some 1 }

/-- First-minimum property of `nearestAux`: on a nonempty list it returns
the index and value of a minimal `|x - w|`, and every strictly earlier
index is strictly farther from `w`. -/
theorem nearestAux_spec (w : ℚ) : ∀ xs : List ℚ, xs ≠ [] →
    ∃ j b, nearestAux xs w = some (j, b) ∧ j < xs.length ∧ xs.getD j 0 = b ∧
      (∀ k, k < xs.length → |b - w| ≤ |xs.getD k 0 - w|) ∧
      (∀ k, k < j → |b - w| < |xs.getD k 0 - w|) := by
  intro xs
  induction xs with
  | nil => intro h; exact absurd rfl h
  | cons x rest ih =>
    intro _
    by_cases hrest : rest = []
    · subst hrest
      refine ⟨0, x, by simp [nearestAux], by simp, rfl, ?_, by omega⟩
      intro k hk
      have hk0 : k = 0 := by simpa using hk
      subst hk0
      simp
    · obtain ⟨j, b, haux, hlt, hget, hmin, hfirst⟩ := ih hrest
      by_cases hle : |x - w| ≤ |b - w|
      · refine ⟨0, x, ?_, by simp, rfl, ?_, by omega⟩
        · simp [nearestAux, haux, hle]
        · intro k hk
          match k with
          | 0 => simp
          | Nat.succ k' =>
            rw [List.getD_cons_succ]
            exact hle.trans (hmin k' (by simpa using hk))
      · refine ⟨j + 1, b, ?_, by simpa using hlt, by simpa using hget, ?_, ?_⟩
        · simp [nearestAux, haux, hle]
        · intro k hk
          match k with
          | 0 => rw [List.getD_cons_zero]; exact (not_le.mp hle).le
          | Nat.succ k' =>
            rw [List.getD_cons_succ]
            exact hmin k' (by simpa using hk)
        · intro k hk
          match k with
          | 0 => rw [List.getD_cons_zero]; exact not_le.mp hle
          | Nat.succ k' =>
            rw [List.getD_cons_succ]
            exact hfirst k' (by omega)

/-- `nearest_index` returns an in-range index of a minimal `|xs[i] - w|`,
and every strictly earlier index lies strictly farther from `w`. -/
theorem nearest_index_spec (xs : List ℚ) (w : ℚ) (h : xs ≠ []) :
    nearest_index xs w < xs.length ∧
      (∀ k, k < xs.length →
        |xs.getD (nearest_index xs w) 0 - w| ≤ |xs.getD k 0 - w|) ∧
      (∀ k, k < nearest_index xs w →
        |xs.getD (nearest_index xs w) 0 - w| < |xs.getD k 0 - w|) := by
  obtain ⟨j, b, haux, hlt, hget, hmin, hfirst⟩ := nearestAux_spec w xs h
  have hidx : nearest_index xs w = j := by simp [nearest_index, haux]
  rw [hidx, hget]
  exact ⟨hlt, hmin, hfirst⟩

/-- Python `==` between an `int` and a `str` is always `False` (neither
type's `__eq__` accepts the other). -/
theorem pyEq_int_str (n : Int) (t : String) : pyEq (PyVal.int n) (PyVal.str t) = false := rfl

/-- `apply_to_viewers` never touches the slice textbox. -/
theorem apply_to_viewers_slice_text (s : State) (i : Int) :
    (apply_to_viewers s i).slice_text = s.slice_text := by
  simp only [apply_to_viewers]
  split <;> rfl

/-- `apply_to_viewers` never touches the wavelength textbox. -/
theorem apply_to_viewers_wavelength_text (s : State) (i : Int) :
    (apply_to_viewers s i).wavelength_text = s.wavelength_text := by
  simp only [apply_to_viewers]
  split <;> rfl

/-- `(l.map f).getD` at an in-range index is `f` of the original entry. -/
theorem getD_map_viewers (f : Viewer → Viewer) (d : Viewer) :
    ∀ (l : List Viewer) (k : Nat), k < l.length → (l.map f).getD k d = f (l.getD k d) := by
  intro l
  induction l with
  | nil => intro k hk; simp at hk
  | cons x t ih =>
    intro k hk
    match k with
    | 0 => rfl
    | Nat.succ k' =>
      simp only [List.map_cons, List.getD_cons_succ]
      exact ih k' (by simpa using hk)

/-- C2: `_on_text_wavelength_change` resolves a target wavelength by pushing
to the slider the index `nearest_index` of a minimizer of the absolute
difference to the axis values, and whenever several indices attain the
minimum it picks the lowest one (every strictly smaller index lies strictly
farther, so any tied index is at or after the returned one). -/
theorem claim_C2_nearest_resolution (s : State) (w : ℚ) (h : s.wavelengths ≠ []) :
    (on_text_wavelength_change s (some w)).slider
        = s.slider.setValue (nearest_index s.wavelengths w) ∧
    nearest_index s.wavelengths w < s.wavelengths.length ∧
    (∀ k, k < s.wavelengths.length →
      |s.wavelengths.getD (nearest_index s.wavelengths w) 0 - w| ≤ |s.wavelengths.getD k 0 - w|) ∧
    (∀ k, k < s.wavelengths.length →
      |s.wavelengths.getD k 0 - w| = |s.wavelengths.getD (nearest_index s.wavelengths w) 0 - w| →
      nearest_index s.wavelengths w ≤ k) := by
  obtain ⟨hlt, hmin, hfirst⟩ := nearest_index_spec s.wavelengths w h
  refine ⟨rfl, hlt, hmin, ?_⟩
  intro k _ heq
  by_contra hcon
  push_neg at hcon
  have hk := hfirst k hcon
  rw [heq] at hk
  exact absurd hk (lt_irrefl _)

/-- Witness for C2 at the axis `[1, 2]` and target `1/2`. -/
theorem claim_C2_witness :
    (on_text_wavelength_change baseState (some (1 / 2))).slider
        = baseState.slider.setValue (nearest_index baseState.wavelengths (1 / 2)) ∧
    nearest_index baseState.wavelengths (1 / 2) < baseState.wavelengths.length ∧
    (∀ k, k < baseState.wavelengths.length →
      |baseState.wavelengths.getD (nearest_index baseState.wavelengths (1 / 2)) 0 - 1 / 2|
        ≤ |baseState.wavelengths.getD k 0 - 1 / 2|) ∧
    (∀ k, k < baseState.wavelengths.length →
      |baseState.wavelengths.getD k 0 - 1 / 2|
          = |baseState.wavelengths.getD (nearest_index baseState.wavelengths (1 / 2)) 0 - 1 / 2| →
      nearest_index baseState.wavelengths (1 / 2) ≤ k) :=
  claim_C2_nearest_resolution baseState (1 / 2) (by decide)

/-- C7: when the slice textbox parses as the integer `n`, the handler moves
the slider to `0` for `n < 0`, to `len(axis) - 1` for `n` beyond the end,
and to `n` itself otherwise. -/
theorem claim_C7_slice_text_clamping (s : State) (n : Int)
    (hp : pyInt? s.slice_text = some n)
    (hmin : s.slider.min = 0)
    (hmax : s.slider.max = (s.wavelengths.length : Int) - 1)
    (hne : s.wavelengths ≠ []) :
    (on_text_slice_change s).slider.val =
      if n < 0 then 0
      else if n > (s.wavelengths.length : Int) - 1 then (s.wavelengths.length : Int) - 1
      else n := by
  have hlen : 1 ≤ (s.wavelengths.length : Int) := by
    have := List.length_pos.mpr hne
    omega
  unfold on_text_slice_change
  rw [hp]
  simp only [pyEq_int_str, Bool.false_eq_true, if_false, Slider.setValue, hmin, hmax]
  rw [max_def, min_def]
  split_ifs <;> omega

/-- Witness for C7: the text `"5"` on the two-slice axis clamps to `1`. -/
theorem claim_C7_witness :
    (on_text_slice_change stateParsed).slider.val =
      if (5 : Int) < 0 then 0
      else if (5 : Int) > (stateParsed.wavelengths.length : Int) - 1 then
        (stateParsed.wavelengths.length : Int) - 1
      else 5 :=
  claim_C7_slice_text_clamping stateParsed 5 (by decide) (by decide) (by decide) (by decide)

/-- C8: an unparsable slice (resp. wavelength) textbox makes its handler
paint that box red and return with every other field untouched, and a
parsable one clears the error style. -/
theorem claim_C8_invalid_text_isolated (s : State) :
    (pyInt? s.slice_text = none →
      on_text_slice_change s = { s with slice_style := RED_BACKGROUND }) ∧
    (∀ n, pyInt? s.slice_text = some n → (on_text_slice_change s).slice_style = "") ∧
    (pyFloat? s.wavelength_text = none →
      on_text_wavelength_change s none = { s with wavelength_style := RED_BACKGROUND }) ∧
    (∀ w, pyFloat? s.wavelength_text = some w →
      (on_text_wavelength_change s none).wavelength_style = "") := by
  refine ⟨?_, ?_, ?_, ?_⟩
  · intro h
    unfold on_text_slice_change
    rw [h]
  · intro n h
    unfold on_text_slice_change
    rw [h]
    simp only [pyEq_int_str, Bool.false_eq_true, if_false]
  · intro h
    unfold on_text_wavelength_change
    rw [h]
  · intro w h
    unfold on_text_wavelength_change
    rw [h]

/-- Witness for C8: `"abc"`/`"xyz"` are rejected in place, `"5"`/`"0.5"`
clear the error styles. -/
theorem claim_C8_witness :
    (on_text_slice_change stateUnparsed = { stateUnparsed with slice_style := RED_BACKGROUND } ∧
      on_text_wavelength_change stateUnparsed none
        = { stateUnparsed with wavelength_style := RED_BACKGROUND }) ∧
    ((on_text_slice_change stateParsed).slice_style = "" ∧
      (on_text_wavelength_change stateParsed none).wavelength_style = "") :=
  ⟨⟨(claim_C8_invalid_text_isolated stateUnparsed).1 (by decide),
    (claim_C8_invalid_text_isolated stateUnparsed).2.2.1 (by decide)⟩,
   ⟨(claim_C8_invalid_text_isolated stateParsed).2.1 5 (by decide),
    (claim_C8_invalid_text_isolated stateParsed).2.2.2 (1 / 2) (by decide)⟩⟩

/-- C9: the guard on line 275 compares a Python `int` to a Python `str`,
which is never equal, so after any successful parse the handler always
reaches the clamp and the slider update. -/
theorem claim_C9_guard_unreachable (s : State) (n : Int) (t : String) :
    pyEq (PyVal.int n) (PyVal.str t) = false ∧
    (pyInt? s.slice_text = some n →
      on_text_slice_change s =
        { s with slice_style := "",
                 slider := s.slider.setValue
                   (if (if n < 0 then 0 else n) > (s.wavelengths.length : Int) - 1 then
                      (s.wavelengths.length : Int) - 1
                    else if n < 0 then 0 else n) }) := by
  refine ⟨pyEq_int_str n t, ?_⟩
  intro h
  unfold on_text_slice_change
  rw [h]
  simp only [pyEq_int_str, Bool.false_eq_true, if_false]

/-- Witness for C9 at the parsed text `"5"`. -/
theorem claim_C9_witness :
    pyEq (PyVal.int 5) (PyVal.str "5") = false ∧
    on_text_slice_change stateParsed =
      { stateParsed with slice_style := "",
                         slider := stateParsed.slider.setValue
                           (if (if (5 : Int) < 0 then 0 else 5) > (stateParsed.wavelengths.length : Int) - 1 then
                              (stateParsed.wavelengths.length : Int) - 1
                            else if (5 : Int) < 0 then 0 else 5) } :=
  ⟨(claim_C9_guard_unreachable stateParsed 5 "5").1,
   (claim_C9_guard_unreachable stateParsed 5 "5").2 (by decide)⟩

/-- C10: `change_slider_value` emits the unclamped sum of the previous
slider value and `amount` while the slider itself stores the clamped sum;
concretely, on the two-slice axis at value `0`, amount `-5` emits position
`-5` (outside `[0, 1]`) while the slider stays at `0`. -/
theorem claim_C10_unclamped_emission (s : State) (amount : Int) :
    (change_slider_value s amount).emitted
        = s.emitted ++ [Ev.dispersionPos (s.slider.val + amount)] ∧
    (change_slider_value s amount).slider.val
        = Max.max s.slider.min (Min.min s.slider.max (s.slider.val + amount)) ∧
    (change_slider_value baseState (-5)).emitted = [Ev.dispersionPos (-5)] ∧
    ¬(0 ≤ (-5 : Int)) ∧
    (change_slider_value baseState (-5)).slider.val = 0 :=
  ⟨rfl, rfl, by decide, by decide, by decide⟩

/-- C4: with a units controller holding a nonzero redshift `z`, the external
cursor handler rescales the observed position to `rest = observed / (1 + z)`,
re-resolves that rest wavelength to the nearest axis value, and delegates
that axis value to `_on_text_wavelength_change`; with no controller or a
zero redshift the position is delegated unchanged. -/
theorem claim_C4_redshift_correction (s : State) (pos : ℚ) :
    (∀ z, s.redshift = some z → z ≠ 0 →
      specviz_wavelength_slider_change s pos =
        (if !s.slider_flag then
          { on_text_wavelength_change { s with slider_flag := true }
              (some (pyGet s.wavelengths (nearest_index s.wavelengths (pos / (1 + z))))) with
            slider_flag := false }
        else
          on_text_wavelength_change { s with slider_flag := true }
            (some (pyGet s.wavelengths (nearest_index s.wavelengths (pos / (1 + z))))))) ∧
    ((s.redshift = none ∨ s.redshift = some 0) →
      specviz_wavelength_slider_change s pos =
        (if !s.slider_flag then
          { on_text_wavelength_change { s with slider_flag := true } (some pos) with
            slider_flag := false }
        else on_text_wavelength_change { s with slider_flag := true } (some pos))) := by
  obtain ⟨wl, st, wt, ss, ws, sl, sf, si, cv, ai, svm, rz, wfm, wu, wlt, lt, we, em⟩ := s
  constructor
  · intro z hz hz0
    have hz' : rz = some z := hz
    subst hz'
    unfold specviz_wavelength_slider_change
    dsimp only
    rw [if_pos hz0]
  · intro hd
    rcases hd with h | h
    · have h' : rz = none := h
      subst h'
      rfl
    · have h' : rz = some 0 := h
      subst h'
      unfold specviz_wavelength_slider_change
      dsimp only
      rw [if_neg (show ¬((0 : ℚ) ≠ 0) by simp)]

/-- Witness for C4 at redshift `1` (nonzero case) and at no controller
(pass-through case), observed position `3`. -/
theorem claim_C4_witness :
    specviz_wavelength_slider_change stateRedshift 3 =
      (if !stateRedshift.slider_flag then
        { on_text_wavelength_change { stateRedshift with slider_flag := true }
            (some (pyGet stateRedshift.wavelengths
              (nearest_index stateRedshift.wavelengths (3 / (1 + 1))))) with
          slider_flag := false }
      else
        on_text_wavelength_change { stateRedshift with slider_flag := true }
          (some (pyGet stateRedshift.wavelengths
            (nearest_index stateRedshift.wavelengths (3 / (1 + 1)))))) ∧
    specviz_wavelength_slider_change baseState 3 =
      (if !baseState.slider_flag then
        { on_text_wavelength_change { baseState with slider_flag := true } (some 3) with
          slider_flag := false }
      else on_text_wavelength_change { baseState with slider_flag := true } (some 3)) :=
  ⟨(claim_C4_redshift_correction stateRedshift 3).1 1 rfl (by norm_num),
   (claim_C4_redshift_correction baseState 3).2 (Or.inl rfl)⟩

/-- C6: with the active viewer synced and single-viewer mode off,
`apply_to_viewers i` moves every synced viewer's slice to `i`, leaves
unsynced viewers untouched and records `i` as the shared synced index;
with single-viewer mode on or an unsynced active viewer, only the active
viewer is redrawn and the synced index is untouched; in both cases the
dispersion-position notification carrying `i` is emitted. -/
theorem claim_C6_synced_fanout (s : State) (i : Int)
    (ha : s.active_index < s.cube_views.length) :
    ((s.cube_views.getD s.active_index noViewer).synced = true → s.single_viewer_mode = false →
      (apply_to_viewers s i).synced_index = i ∧
      (∀ k, k < s.cube_views.length →
        ((s.cube_views.getD k noViewer).synced = true →
          ((apply_to_viewers s i).cube_views.getD k noViewer).slice_index = i) ∧
        ((s.cube_views.getD k noViewer).synced = false →
          (apply_to_viewers s i).cube_views.getD k noViewer = s.cube_views.getD k noViewer))) ∧
    ((s.single_viewer_mode = true ∨ (s.cube_views.getD s.active_index noViewer).synced = false) →
      (apply_to_viewers s i).synced_index = s.synced_index ∧
      (apply_to_viewers s i).cube_views =
        s.cube_views.set s.active_index
          (if s.slider_flag then
            (s.cube_views.getD s.active_index noViewer).fast_draw_slice_at_index i
           else (s.cube_views.getD s.active_index noViewer).update_slice_index i)) ∧
    (apply_to_viewers s i).emitted = s.emitted ++ [Ev.dispersionPos i] := by
  refine ⟨?_, ?_, ?_⟩
  · intro hsy hsv
    have hc : ((s.cube_views.getD s.active_index noViewer).synced && !s.single_viewer_mode) = true := by
      rw [hsy, hsv]
      rfl
    refine ⟨?_, ?_⟩
    · simp only [apply_to_viewers]
      rw [if_pos hc]
    · intro k hk
      refine ⟨?_, ?_⟩
      · intro hks
        simp only [apply_to_viewers]
        rw [if_pos hc]
        show ((s.cube_views.map _).getD k noViewer).slice_index = i
        rw [getD_map_viewers _ _ _ _ hk, if_pos hks]
        split <;> rfl
      · intro hks
        simp only [apply_to_viewers]
        rw [if_pos hc]
        show (s.cube_views.map _).getD k noViewer = s.cube_views.getD k noViewer
        rw [getD_map_viewers _ _ _ _ hk, if_neg (by rw [hks]; simp)]
  · intro hd
    have hc : ¬(((s.cube_views.getD s.active_index noViewer).synced && !s.single_viewer_mode) = true) := by
      rcases hd with h | h <;> rw [h] <;> simp
    refine ⟨?_, ?_⟩
    · simp only [apply_to_viewers]
      rw [if_neg hc]
    · simp only [apply_to_viewers]
      rw [if_neg hc]
  · simp only [apply_to_viewers]
    split <;> rfl

/-- Witness for C6 at the one-viewer synced state, index `1`, and a
single-viewer-mode variant of the same state. -/
theorem claim_C6_witness :
    ((apply_to_viewers baseState 1).synced_index = 1 ∧
      (∀ k, k < baseState.cube_views.length →
        ((baseState.cube_views.getD k noViewer).synced = true →
          ((apply_to_viewers baseState 1).cube_views.getD k noViewer).slice_index = 1) ∧
        ((baseState.cube_views.getD k noViewer).synced = false →
          (apply_to_viewers baseState 1).cube_views.getD k noViewer
            = baseState.cube_views.getD k noViewer))) ∧
    (apply_to_viewers baseState 1).emitted = baseState.emitted ++ [Ev.dispersionPos 1] :=
  ⟨(claim_C6_synced_fanout baseState 1 (by decide)).1 (by decide) (by decide),
   (claim_C6_synced_fanout baseState 1 (by decide)).2.2⟩

/-- Counterexample to C5 as stated: on the axis `[1, 1]` (a duplicated
wavelength value), resolving the exact value `axis[1]` returns index `0`,
not `1` — the tie at distance zero is broken to the lowest index. -/
theorem claim_C5_counterexample :
    stateC5.wavelengths.getD 1 0 = stateC5.wavelengths.getD 0 0 ∧
    nearest_index stateC5.wavelengths (stateC5.wavelengths.getD 1 0) = 0 ∧
    (on_text_wavelength_change stateC5 (some (stateC5.wavelengths.getD 1 0))).slider.val = 0 ∧
    ¬(nearest_index stateC5.wavelengths (stateC5.wavelengths.getD 1 0) = 1) := by decide

/-- C5 (amended): when the axis values are pairwise distinct, resolving the
exact wavelength `axis[i]` returns `i` and the handler pushes exactly `i`
to the slider; with duplicated values the resolution returns the lowest
index holding the tied value. -/
theorem claim_C5_amended_idempotence (s : State) (i : Nat)
    (hi : i < s.wavelengths.length) (hnd : s.wavelengths.Nodup) :
    nearest_index s.wavelengths (s.wavelengths.getD i 0) = i ∧
    (on_text_wavelength_change s (some (s.wavelengths.getD i 0))).slider
      = s.slider.setValue i := by
  have hne : s.wavelengths ≠ [] := by
    intro h
    rw [h] at hi
    simp at hi
  set w := s.wavelengths.getD i 0 with hw
  obtain ⟨hlt, hmin, _⟩ := nearest_index_spec s.wavelengths w hne
  have h0 : |s.wavelengths.getD (nearest_index s.wavelengths w) 0 - w| ≤ 0 := by
    have h1 := hmin i hi
    rw [← hw] at h1
    simpa using h1
  have habs : s.wavelengths.getD (nearest_index s.wavelengths w) 0 = w := by
    have hz := le_antisymm h0 (abs_nonneg _)
    have := abs_eq_zero.mp hz
    linarith
  have hri : nearest_index s.wavelengths w = i := by
    rw [List.getD_eq_getElem _ _ hlt] at habs
    have h2 : s.wavelengths[nearest_index s.wavelengths w] = s.wavelengths[i] := by
      rw [habs, hw, List.getD_eq_getElem _ _ hi]
    exact (hnd.getElem_inj_iff).mp h2
  refine ⟨hri, ?_⟩
  have hslider : (on_text_wavelength_change s (some w)).slider
      = s.slider.setValue (nearest_index s.wavelengths w) := rfl
  rw [hslider, hri]

/-- Witness for the amended C5: on the duplicate-free axis `[1, 2]`,
resolving `axis[1]` returns `1`. -/
theorem claim_C5_amended_witness :
    nearest_index baseState.wavelengths (baseState.wavelengths.getD 1 0) = 1 ∧
    (on_text_wavelength_change baseState (some (baseState.wavelengths.getD 1 0))).slider
      = baseState.slider.setValue 1 :=
  claim_C5_amended_idempotence baseState 1 (by decide) (by decide)

/-- Counterexample to C1 as stated: on the axis `[1.23456, 2]` with the
format `'{:.3}'` configured (as `enable` does), moving the slider to index
`0` writes `str(axis[0]) = "1.23456"` into the wavelength textbox — not
the formatted `"1.23"` the claim requires. -/
theorem claim_C1_counterexample :
    (set_slider_and_propagate stateC1 0).slice_text = "0" ∧
    (set_slider_and_propagate stateC1 0).wavelength_text = "1.23456" ∧
    Fmt.apply stateC1.wavelength_format (pyGet stateC1.wavelengths 0) = "1.23" ∧
    ¬((set_slider_and_propagate stateC1 0).wavelength_text
        = Fmt.apply stateC1.wavelength_format (pyGet stateC1.wavelengths 0)) := by decide

/-- C1 (amended): for `i` in range, setting the slider to `i` (from a
different value, so the index-update message is broadcast and handled by
`master_index_update`) leaves the slice textbox holding `str(i)` and the
wavelength textbox holding `str(axis[i])` — the plain string conversion,
not the configured wavelength format — provided the slice textbox did not
already parse to `i` and the wavelength textbox did not already resolve to
index `i` (in those cases the respective textbox is left as it was).
This helper settles the reconciliation core on the post-`setValue` state. -/
theorem master_index_update_texts (t : State) (i : Int)
    (htb : (pyInt? t.slice_text).getD (-1) ≠ i)
    (hwv : wvIndexOf t ≠ i)
    (hsl : t.slider.val = i) :
    (master_index_update t i).slice_text = pyStrInt i ∧
    (master_index_update t i).wavelength_text = pyStrFloat (pyGet t.wavelengths i) := by
  unfold master_index_update
  dsimp only
  rw [if_pos htb]
  have hwv' : i ≠ wvIndexOf { t with slice_text := pyStrInt i } := by
    intro h
    exact hwv (show wvIndexOf t = i from h.symm)
  rw [if_pos hwv']
  rw [if_neg (show ¬(t.slider.val ≠ i) from fun hcon => hcon hsl)]
  exact ⟨apply_to_viewers_slice_text _ _, apply_to_viewers_wavelength_text _ _⟩

/-- C1 (amended): for `i` in range, setting the slider to `i` (from a
different value, so the index-update message is broadcast and handled by
`master_index_update`) leaves the slice textbox holding `str(i)` and the
wavelength textbox holding `str(axis[i])` — the plain string conversion,
not the configured wavelength format — provided the slice textbox did not
already parse to `i` and the wavelength textbox did not already resolve to
index `i` (in those cases the respective textbox is left as it was). -/
theorem claim_C1_amended_textbox_sync (s : State) (i : Int)
    (hmin : s.slider.min = 0)
    (hmax : s.slider.max = (s.wavelengths.length : Int) - 1)
    (hi0 : 0 ≤ i) (hi1 : i < (s.wavelengths.length : Int))
    (hchg : s.slider.val ≠ i)
    (htb : (pyInt? s.slice_text).getD (-1) ≠ i)
    (hwv : wvIndexOf s ≠ i) :
    (set_slider_and_propagate s i).slice_text = pyStrInt i ∧
    (set_slider_and_propagate s i).wavelength_text = pyStrFloat (pyGet s.wavelengths i) := by
  have hval : (s.slider.setValue i).val = i := by
    simp only [Slider.setValue]
    rw [hmin, hmax, max_def, min_def]
    split_ifs <;> omega
  have hne : ({ s with slider := s.slider.setValue i } : State).slider.val ≠ s.slider.val := by
    show (s.slider.setValue i).val ≠ s.slider.val
    rw [hval]
    exact fun h => hchg h.symm
  have hval' : ({ s with slider := s.slider.setValue i } : State).slider.val = i := hval
  unfold set_slider_and_propagate
  dsimp only
  rw [if_pos hne, hval']
  exact master_index_update_texts { s with slider := s.slider.setValue i } i htb hwv hval

/-- Witness for the amended C1: from slider value `0` with both textboxes
unparsable, setting the slider to `1` writes `"1"` and `str(axis[1])`. -/
theorem claim_C1_amended_witness :
    (set_slider_and_propagate stateUnparsed 1).slice_text = pyStrInt 1 ∧
    (set_slider_and_propagate stateUnparsed 1).wavelength_text
      = pyStrFloat (pyGet stateUnparsed.wavelengths 1) :=
  claim_C1_amended_textbox_sync stateUnparsed 1 (by decide) (by decide) (by decide)
    (by decide) (by decide) (by decide) (by decide)

/-- `xs[i]` succeeds exactly when the (nonnegative) index is in range. -/
theorem pyIndex_of_nonneg (xs : List ℚ) (i : Int) (h0 : 0 ≤ i) (h1 : i < (xs.length : Int)) :
    pyIndex xs i = some (xs.getD i.toNat 0) := by
  unfold pyIndex
  dsimp only
  rw [if_neg (show ¬(i < 0) by omega)]
  rw [if_pos ⟨h0, h1⟩]

/-- Counterexample to C3 as stated: in a state satisfying the synced-index
invariant (index `1` on the two-value axis), replacing the axis by the
shorter `[1]` through `set_wavelengths` raises `IndexError` on line 124 and
leaves behind a state whose synced index `1` is out of range for the
now-installed one-value axis. -/
theorem claim_C3_counterexample :
    IdxInvB stateC3 = true ∧
    raised (set_wavelengths stateC3 [1] "m") = true ∧
    IdxInvB (resultState (set_wavelengths stateC3 [1] "m")) = false := by decide

/-- C3 (amended): the synced index is an integer valid for the current axis,
and the operations preserve this under their natural preconditions:
`enable` establishes it for any nonempty axis; `set_wavelengths` preserves
it whenever the replacement axis is long enough to contain the current
synced index (in particular for the same-length unit-conversion case, while
a shorter axis makes line 124 raise with the invariant broken);
`apply_to_viewers i` preserves it for `i` in range of the axis; and the
slider-release handler preserves it whenever the slider range is the
well-formed `[0, len(axis) - 1]` that `enable`/`set_wavelengths` install. -/
theorem claim_C3_amended_invariant (s : State) (u : String) (w : List ℚ) (i : Int) :
    (w ≠ [] → ∃ s', enable s u w = Except.ok s' ∧ IdxInv s') ∧
    (IdxInv s → s.synced_index < (w.length : Int) →
      ∃ s', set_wavelengths s w u = Except.ok s' ∧ IdxInv s') ∧
    (IdxInv s → 0 ≤ i → i < (s.wavelengths.length : Int) → IdxInv (apply_to_viewers s i)) ∧
    (SliderWF s → IdxInv s → IdxInv (on_slider_released s)) := by
  refine ⟨?_, ?_, ?_, ?_⟩
  · intro hw
    have hlen : 0 < w.length := List.length_pos.mpr hw
    unfold enable
    dsimp only
    rw [pyIndex_of_nonneg w _ (by omega) (by omega)]
    dsimp only
    refine ⟨_, rfl, ?_⟩
    unfold IdxInv
    dsimp only
    omega
  · intro hinv hlt
    unfold set_wavelengths
    dsimp only
    rw [pyIndex_of_nonneg w s.synced_index hinv.1 hlt]
    dsimp only
    refine ⟨_, rfl, ?_⟩
    unfold IdxInv
    dsimp only
    exact ⟨hinv.1, hlt⟩
  · intro hinv h0 h1
    unfold apply_to_viewers IdxInv
    dsimp only
    split
    · exact ⟨h0, h1⟩
    · exact hinv
  · intro hwf hinv
    obtain ⟨hmn, hmx, hv1, hv2⟩ := hwf
    unfold on_slider_released IdxInv
    dsimp only
    split
    · dsimp only
      omega
    · exact hinv

/-- Witness for the amended C3 at the base state with the three-value
replacement axis and index `1`. -/
theorem claim_C3_amended_witness :
    (∃ s', enable baseState "m" [1, 2, 3] = Except.ok s' ∧ IdxInv s') ∧
    (∃ s', set_wavelengths baseState [1, 2, 3] "m" = Except.ok s' ∧ IdxInv s') ∧
    IdxInv (apply_to_viewers baseState 1) ∧
    IdxInv (on_slider_released baseState) :=
  ⟨(claim_C3_amended_invariant baseState "m" [1, 2, 3] 1).1 (by decide),
   (claim_C3_amended_invariant baseState "m" [1, 2, 3] 1).2.1
     ⟨by decide, by decide⟩ (by decide),
   (claim_C3_amended_invariant baseState "m" [1, 2, 3] 1).2.2.1
     ⟨by decide, by decide⟩ (by decide) (by decide),
   (claim_C3_amended_invariant baseState "m" [1, 2, 3] 1).2.2.2
     ⟨by decide, by decide, by decide, by decide⟩ ⟨by decide, by decide⟩⟩

end SliceCtl
